import Mathlib

/-!
# Verification of the trading core (`trading.py`)

A shallow embedding of the trading module: strategy selection, budget and
quantity sizing, FIXML order construction, gateway response handling, and
the `make_trades` orchestration loop.  Python floats are modelled as exact
rationals, Python `None`/exceptions as `Option`/`Except`, parsed JSON as an
inductive value type.  Gateway interactions are modelled by passing the
gateway's responses explicitly and recording the requests that a run issues.
-/

namespace Trading

/-! ## Python runtime model: JSON values, truthiness, membership, indexing -/

/-- Python exceptions that can escape the trading code. -/
inductive PyErr where
  | typeError
  | nameError
  | keyError
  | valueError
deriving DecidableEq, Repr

/-- A parsed JSON value, the result of `simplejson.loads`.  Objects are
association lists (the endpoints produce objects with distinct keys). -/
inductive Json where
  | null
  | bool (b : Bool)
  | num (q : ℚ)
  | str (s : String)
  | arr (elems : List Json)
  | obj (fields : List (String × Json))
deriving Repr

/-- Python dict lookup: later duplicate keys overwrite earlier ones, so the
last binding for a key wins. -/
def pyLookup (k : String) : List (String × Json) → Option Json
  | [] => none
  | (k', v) :: rest =>
    match pyLookup k rest with
    | some r => some r
    | none => if k' = k then some v else none

/-- Python truthiness (`bool(x)`) of a JSON value. -/
def truthy : Json → Bool
  | .null => false
  | .bool b => b
  | .num q => q ≠ 0
  | .str s => s ≠ ""
  | .arr elems => !elems.isEmpty
  | .obj fields => !fields.isEmpty

/-- Substring test, modelling Python `needle in haystack` on strings. -/
def strContains (haystack needle : String) : Bool :=
  haystack.data.tails.any fun t => needle.data.isPrefixOf t

/-- Python membership `k in v` for a string key `k`: key lookup on dicts,
element equality on lists, substring test on strings, and `TypeError` on
non-container values. -/
def pyMem (k : String) : Json → Except PyErr Bool
  | .obj fields => .ok (pyLookup k fields).isSome
  | .arr elems => .ok (elems.any fun e => match e with | .str s => s = k | _ => false)
  | .str s => .ok (strContains s k)
  | _ => .error .typeError

/-- Python indexing `v[k]` with a string key: defined on dicts, `TypeError`
otherwise (string and list indices must be integers). -/
def pyGet (v : Json) (k : String) : Except PyErr Json :=
  match v with
  | .obj fields =>
    match pyLookup k fields with
    | some r => .ok r
    | none => .error .keyError
  | _ => .error .typeError

/-- A decimal-string parser for Python `float(s)` on the numeric strings the
brokerage returns: optional sign, digits, optional fractional part. -/
def parseDecimal (s : String) : Option ℚ :=
  let (sign, rest) :=
    match s.data with
    | '-' :: cs => ((-1 : ℚ), cs)
    | '+' :: cs => ((1 : ℚ), cs)
    | cs => ((1 : ℚ), cs)
  let (intPart, rest') := (rest.takeWhile Char.isDigit, rest.dropWhile Char.isDigit)
  let digitsVal (ds : List Char) : ℚ :=
    ds.foldl (fun acc d => acc * 10 + (d.toNat - '0'.toNat : ℕ)) 0
  match rest' with
  | [] =>
    if intPart = [] then none
    else some (sign * digitsVal intPart)
  | '.' :: fracPart =>
    if fracPart.all Char.isDigit ∧ ¬(intPart = [] ∧ fracPart = []) then
      some (sign * (digitsVal intPart + digitsVal fracPart / (10 : ℚ) ^ fracPart.length))
    else none
  | _ => none

/-- Python `float(v)` on a JSON value: numbers and bools convert, numeric
strings parse (`ValueError` otherwise), anything else is a `TypeError`. -/
def pyFloat : Json → Except PyErr ℚ
  | .num q => .ok q
  | .bool b => .ok (if b then 1 else 0)
  | .str s =>
    match parseDecimal s with
    | some q => .ok q
    | none => .error .valueError
  | _ => .error .typeError

/-- Python equality `v == s` between a JSON value and a string literal. -/
def jsonEqStr (v : Json) (s : String) : Bool :=
  match v with
  | .str s' => s' = s
  | _ => false

/-! ## Configuration constants (`trading.py` module level) -/

/-- The amount of cash in dollars to hold from being spent. -/
def CASH_HOLD : ℚ := 1000

/-- Blacklisted stock ticker symbols. -/
def TICKER_BLACKLIST : List String := ["GOOG", "GOOGL"]

/-- The XML namespace for FIXML requests. -/
def FIXML_NAMESPACE : String := "http://www.fixprotocol.org/FIXML-5-0-SP2"

/-! ## Data model -/

/-- A company signal: ticker symbol and sentiment score. -/
structure Company where
  ticker : String
  sentiment : ℚ
deriving DecidableEq, Repr

/-- A strategy decision as built by `get_strategy`. -/
structure Strategy where
  ticker : String
  action : String
  reason : String
deriving DecidableEq, Repr

/-! ## `Trading.get_strategy` (trading.py lines 102-140)

The market status argument is the result of `get_market_status`: either one
of the status strings or Python `None`, modelled as `Option String`. -/

def get_strategy (company : Company) (market_status : Option String) : Strategy :=
  let ticker := company.ticker
  let sentiment := company.sentiment
  -- Don't do anything with blacklisted stocks.
  if ticker ∈ TICKER_BLACKLIST then
    { ticker := ticker, action := "hold", reason := "blacklist" }
  -- Don't trade unless the markets are open or are about to open.
  else if market_status ≠ some "open" ∧ market_status ≠ some "pre" then
    { ticker := ticker, action := "hold", reason := "market closed" }
  -- Can't trade without sentiment.
  else if sentiment = 0 then
    { ticker := ticker, action := "hold", reason := "neutral sentiment" }
  -- Determine bull or bear based on sentiment direction.
  else if sentiment > 0 then
    { ticker := ticker, action := "bull", reason := "positive sentiment" }
  else
    { ticker := ticker, action := "bear", reason := "negative sentiment" }

/-! ## `Trading.get_budget` (trading.py lines 142-148)

Python `round(x, 2)` rounds half to even; floats are modelled as exact
rationals. -/

/-- Round a rational to the nearest integer, ties to even (Python `round`). -/
def roundHalfEven (x : ℚ) : ℤ :=
  if x - ⌊x⌋ < 1 / 2 then ⌊x⌋
  else if 1 / 2 < x - ⌊x⌋ then ⌊x⌋ + 1
  else if ⌊x⌋ % 2 = 0 then ⌊x⌋ else ⌊x⌋ + 1

/-- Round to two decimal places, ties to even. -/
def round2 (x : ℚ) : ℚ := (roundHalfEven (x * 100) : ℚ) / 100

def get_budget (balance : ℚ) (num_strategies : ℤ) : ℚ :=
  if num_strategies ≤ 0 then 0
  else round2 (max 0 (balance - CASH_HOLD) / (num_strategies : ℚ))

/-! ## XML element trees and serialization (lxml `Element`/`SubElement`/`tostring`)

`lxml` serializes attributes in insertion order; elements without children
are self-closing. -/

/-- An XML element: tag name, attributes in insertion order, children. -/
inductive Xml where
  | elem (tag : String) (attrs : List (String × String)) (children : List Xml)

/-- One serialized attribute: ` name="value"`. -/
def attrString (a : String × String) : String :=
  " " ++ a.1 ++ "=\x22" ++ a.2 ++ "\x22"

mutual

/-- `lxml.etree.tostring`: serialize an element tree. -/
def tostring : Xml → String
  | .elem tag attrs [] =>
    "<" ++ tag ++ String.join (attrs.map attrString) ++ "/>"
  | .elem tag attrs (c :: cs) =>
    "<" ++ tag ++ String.join (attrs.map attrString) ++ ">" ++
      tostringList (c :: cs) ++ "</" ++ tag ++ ">"

/-- Serialize a list of sibling elements. -/
def tostringList : List Xml → String
  | [] => ""
  | c :: cs => tostring c ++ tostringList cs

end

/-! ## FIXML order builders (trading.py lines 196-267)

The account number comes from the `TRADEKING_ACCOUNT_NUMBER` environment
variable; it is passed explicitly as `acct`. -/

/-- Generates the FIXML for a buy order at market price. -/
def fixml_buy_now (acct ticker : String) (quantity : ℤ) : String :=
  tostring (.elem "FIXML" [("xmlns", FIXML_NAMESPACE)]
    [.elem "Order"
      [("TmInForce", "0"),  -- Day order
       ("Typ", "1"),  -- Market price
       ("Side", "1"),  -- Buy
       ("Acct", acct)]
      [.elem "Instrmt" [("SecTyp", "CS"), ("Sym", ticker)] [],
       .elem "OrdQty" [("Qty", toString quantity)] []]])

/-- Generates the FIXML for a sell order at market price on close. -/
def fixml_sell_eod (acct ticker : String) (quantity : ℤ) : String :=
  tostring (.elem "FIXML" [("xmlns", FIXML_NAMESPACE)]
    [.elem "Order"
      [("TmInForce", "7"),  -- Market on close
       ("Typ", "1"),  -- Market price
       ("Side", "2"),  -- Sell
       ("Acct", acct)]
      [.elem "Instrmt" [("SecTyp", "CS"), ("Sym", ticker)] [],
       .elem "OrdQty" [("Qty", toString quantity)] []]])

/-- Generates the FIXML for a sell short order at market price. -/
def fixml_short_now (acct ticker : String) (quantity : ℤ) : String :=
  tostring (.elem "FIXML" [("xmlns", FIXML_NAMESPACE)]
    [.elem "Order"
      [("TmInForce", "0"),  -- Day order
       ("Typ", "1"),  -- Market price
       ("Side", "5"),  -- Sell short
       ("Acct", acct)]
      [.elem "Instrmt" [("SecTyp", "CS"), ("Sym", ticker)] [],
       .elem "OrdQty" [("Qty", toString quantity)] []]])

/-- Generates the FIXML for a sell to cover order at market close. -/
def fixml_cover_eod (acct ticker : String) (quantity : ℤ) : String :=
  tostring (.elem "FIXML" [("xmlns", FIXML_NAMESPACE)]
    [.elem "Order"
      [("TmInForce", "7"),  -- Market on close
       ("Typ", "1"),  -- Market price
       ("Side", "1"),  -- Buy
       ("AcctTyp", "5"),  -- Cover
       ("Acct", acct)]
      [.elem "Instrmt" [("SecTyp", "CS"), ("Sym", ticker)] [],
       .elem "OrdQty" [("Qty", toString quantity)] []]])

/-! ## `Trading.get_market_status` (trading.py lines 150-173)

The argument is the parsed JSON of the market-clock request (`none` when the
transport fails or the body is not JSON). -/

def get_market_status (resp : Option Json) : Except PyErr (Option String) :=
  -- `if not response or "response" not in response`
  match resp with
  | none => .ok none
  | some j =>
    if ¬ truthy j then .ok none
    else
      pyMem "response" j >>= fun hasResp =>
      if ¬ hasResp then .ok none
      else
        pyGet j "response" >>= fun clockResponse =>
        -- `if ("status" not in clock_response or
        --      "current" not in clock_response["status"])`
        pyMem "status" clockResponse >>= fun m1 =>
        if ¬ m1 then .ok none
        else
          pyGet clockResponse "status" >>= fun status =>
          pyMem "current" status >>= fun m2 =>
          if ¬ m2 then .ok none
          else
            pyGet status "current" >>= fun current =>
            -- `if current not in ["pre", "open", "after", "close"]`
            match current with
            | .str s =>
              if s = "pre" ∨ s = "open" ∨ s = "after" ∨ s = "close" then
                .ok (some s)
              else .ok none
            | _ => .ok none

/-! ## `Trading.get_balance` (trading.py lines 269-295) -/

def get_balance (resp : Option Json) : Except PyErr ℚ :=
  match resp with
  | none => .ok 0
  | some j =>
    if ¬ truthy j then .ok 0
    else
      pyMem "response" j >>= fun hasResp =>
      if ¬ hasResp then .ok 0
      else
        pyGet j "response" >>= fun balances =>
        pyMem "accountbalance" balances >>= fun m1 =>
        if ¬ m1 then .ok 0
        else
          pyGet balances "accountbalance" >>= fun ab =>
          pyMem "money" ab >>= fun m2 =>
          if ¬ m2 then .ok 0
          else
            pyGet ab "money" >>= fun money =>
            pyMem "cash" money >>= fun m3 =>
            if ¬ m3 then .ok 0
            else
              pyMem "uncleareddeposits" money >>= fun m4 =>
              if ¬ m4 then .ok 0
              else
                pyGet money "cash" >>= fun cashJ =>
                -- `try: ... float(...) ... except ValueError: return 0.0`
                match pyFloat cashJ with
                | .error .valueError => .ok 0
                | .error e => .error e
                | .ok cash =>
                  pyGet money "uncleareddeposits" >>= fun udJ =>
                  match pyFloat udJ with
                  | .error .valueError => .ok 0
                  | .error e => .error e
                  | .ok uncleareddeposits => .ok (cash - uncleareddeposits)

/-! ## `Trading.get_last_price` (trading.py lines 297-334)

The malformed-quotes branch formats a log message that references the
undefined name `quotes_response` (line 315), so reaching it raises
`NameError` instead of returning `None`. -/

/-- The compound condition
`not quotes or "quotes" not in quotes or "quote" not in quotes["quotes"]`,
with Python's left-to-right short-circuit evaluation. -/
def malformedQuotes (quotes : Json) : Except PyErr Bool :=
  if ¬ truthy quotes then .ok true
  else
    pyMem "quotes" quotes >>= fun m1 =>
    if ¬ m1 then .ok true
    else
      pyGet quotes "quotes" >>= fun qs =>
      pyMem "quote" qs >>= fun m2 =>
      .ok (!m2)

def get_last_price (resp : Option Json) : Except PyErr (Option ℚ) :=
  match resp with
  | none => .ok none
  | some j =>
    if ¬ truthy j then .ok none
    else
      pyMem "response" j >>= fun hasResp =>
      if ¬ hasResp then .ok none
      else
        pyGet j "response" >>= fun quotes =>
        -- `if (not quotes or "quotes" not in quotes or
        --      "quote" not in quotes["quotes"])`
        malformedQuotes quotes >>= fun bad =>
        if bad then
          -- the log call references the undefined name `quotes_response`
          .error .nameError
        else
          pyGet quotes "quotes" >>= fun qs =>
          pyGet qs "quote" >>= fun quote =>
          pyMem "last" quote >>= fun hasLast =>
          if ¬ hasLast then .ok none
          else
            pyGet quote "last" >>= fun lastJ =>
            -- `try: last = float(quote["last"]) except ValueError: return None`
            match pyFloat lastJ with
            | .error .valueError => .ok none
            | .error e => .error e
            | .ok last => if 0 < last then .ok (some last) else .ok none

/-! ## `Trading.get_quantity` (trading.py lines 344-364) -/

def get_quantity (resp : Option Json) (budget : ℚ) : Except PyErr (Option ℤ) :=
  get_last_price resp >>= fun price =>
  -- `if not price: return None` (None or 0.0)
  match price with
  | none => .ok none
  | some p =>
    if p = 0 then .ok none
    else
      -- `quantity = int(budget // price)`; `if quantity <= 0: return None`
      if ⌊budget / p⌋ ≤ 0 then .ok none
      else .ok (some ⌊budget / p⌋)

/-! ## `Trading.make_order_request` (trading.py lines 414-438)

The argument is the parsed JSON of the order-submission POST. -/

def make_order_request (resp : Option Json) : Except PyErr Bool :=
  match resp with
  | none => .ok false
  | some j =>
    if ¬ truthy j then .ok false
    else
      pyMem "response" j >>= fun hasResp =>
      if ¬ hasResp then .ok false
      else
        pyGet j "response" >>= fun orderResponse =>
        -- `if not order_response or "error" not in order_response`
        if ¬ truthy orderResponse then .ok false
        else
          pyMem "error" orderResponse >>= fun hasErr =>
          if ¬ hasErr then .ok false
          else
            pyGet orderResponse "error" >>= fun error =>
            -- `if error != "Success": return False`
            .ok (jsonEqStr error "Success")

/-! ## The gateway and the orchestrator (`Trading.make_trades`, lines 48-100)

The brokerage gateway is modelled by its responses: the parsed JSON for each
request (`none` = transport failure or non-JSON body).  Clock responses are
indexed by how many clock requests were issued before, since `make_trades`
requests the market clock more than once.  Each orchestration function
returns its result together with the list of requests it issued, in order. -/

/-- A request issued to the TradeKing gateway. -/
inductive Req where
  | clock
  | balance
  | quote (ticker : String)
  | order (body : String)
deriving DecidableEq, Repr

/-- The gateway's responses, plus the account number configuration. -/
structure Gateway where
  acct : String
  clock : ℕ → Option Json
  balance : Option Json
  quote : String → Option Json
  order : String → Option Json

/-- `Trading.bull` (lines 366-388): buy now at market rate, sell at market
rate at close. -/
def bull (gw : Gateway) (ticker : String) (budget : ℚ) :
    Except PyErr Bool × List Req :=
  match get_quantity (gw.quote ticker) budget with
  | .error e => (.error e, [.quote ticker])
  | .ok none => (.ok false, [.quote ticker])
  | .ok (some quantity) =>
    match make_order_request (gw.order (fixml_buy_now gw.acct ticker quantity)) with
    | .error e =>
      (.error e, [.quote ticker, .order (fixml_buy_now gw.acct ticker quantity)])
    | .ok false =>
      (.ok false, [.quote ticker, .order (fixml_buy_now gw.acct ticker quantity)])
    | .ok true =>
      match make_order_request (gw.order (fixml_sell_eod gw.acct ticker quantity)) with
      | .error e =>
        (.error e, [.quote ticker, .order (fixml_buy_now gw.acct ticker quantity),
          .order (fixml_sell_eod gw.acct ticker quantity)])
      | .ok ok2 =>
        (.ok ok2, [.quote ticker, .order (fixml_buy_now gw.acct ticker quantity),
          .order (fixml_sell_eod gw.acct ticker quantity)])

/-- `Trading.bear` (lines 390-412): sell short now, buy to cover at close. -/
def bear (gw : Gateway) (ticker : String) (budget : ℚ) :
    Except PyErr Bool × List Req :=
  match get_quantity (gw.quote ticker) budget with
  | .error e => (.error e, [.quote ticker])
  | .ok none => (.ok false, [.quote ticker])
  | .ok (some quantity) =>
    match make_order_request (gw.order (fixml_short_now gw.acct ticker quantity)) with
    | .error e =>
      (.error e, [.quote ticker, .order (fixml_short_now gw.acct ticker quantity)])
    | .ok false =>
      (.ok false, [.quote ticker, .order (fixml_short_now gw.acct ticker quantity)])
    | .ok true =>
      match make_order_request (gw.order (fixml_cover_eod gw.acct ticker quantity)) with
      | .error e =>
        (.error e, [.quote ticker, .order (fixml_short_now gw.acct ticker quantity),
          .order (fixml_cover_eod gw.acct ticker quantity)])
      | .ok ok2 =>
        (.ok ok2, [.quote ticker, .order (fixml_short_now gw.acct ticker quantity),
          .order (fixml_cover_eod gw.acct ticker quantity)])

/-- The per-strategy execution loop of `make_trades` (lines 84-100), with
the `success` accumulator made explicit.  `success = success and self.bull(...)`
short-circuits: once `success` is false, `bull`/`bear` is not called.  The
unknown-action branch only logs an error; `success` is unchanged. -/
def run_strategies (gw : Gateway) (budget : ℚ) (success : Bool) :
    List Strategy → Except PyErr Bool × List Req
  | [] => (.ok success, [])
  | strategy :: rest =>
    if strategy.action = "bull" then
      if success then
        match bull gw strategy.ticker budget with
        | (.error e, tr) => (.error e, tr)
        | (.ok b, tr) =>
          let (res, tr') := run_strategies gw budget b rest
          (res, tr ++ tr')
      else run_strategies gw budget false rest
    else if strategy.action = "bear" then
      if success then
        match bear gw strategy.ticker budget with
        | (.error e, tr) => (.error e, tr)
        | (.ok b, tr) =>
          let (res, tr') := run_strategies gw budget b rest
          (res, tr ++ tr')
      else run_strategies gw budget false rest
    else
      -- `self.logs.error("Unknown strategy: ...")`, success unchanged
      run_strategies gw budget success rest

/-- `Trading.make_trades` (lines 48-100).  Note that the market clock is
requested twice: once for the abort check (line 52) and once more before the
strategies are computed (line 59). -/
def make_trades (gw : Gateway) (companies : List Company) :
    Except PyErr Bool × List Req :=
  -- Determine whether the markets are open.
  match get_market_status (gw.clock 0) with
  | .error e => (.error e, [.clock])
  | .ok none => (.ok false, [.clock])
  | .ok (some _) =>
    -- Filter for any strategies resulting in trades.
    match get_market_status (gw.clock 1) with
    | .error e => (.error e, [.clock, .clock])
    | .ok market_status =>
      let actionable_strategies :=
        (companies.map fun c => get_strategy c market_status).filter
          fun s => s.action != "hold"
      if actionable_strategies.isEmpty then (.ok false, [.clock, .clock])
      else
        -- Calculate the budget per strategy.
        match get_balance gw.balance with
        | .error e => (.error e, [.clock, .clock, .balance])
        | .ok balance =>
          let budget := get_budget balance (actionable_strategies.length : ℤ)
          -- `if not budget: return False`
          if budget = 0 then (.ok false, [.clock, .clock, .balance])
          else
            -- Handle trades for each strategy.
            let (res, tr) := run_strategies gw budget true actionable_strategies
            (res, [.clock, .clock, .balance] ++ tr)

/-! ## Spec-side definitions and concrete gateway fixtures -/

/-- The spec's order-verification condition (§4.5), written from the spec's
words: the response is present, contains a nested result object, and that
object's error field literally equals "Success". -/
def spec_order_success : Option Json → Bool
  | some (.obj fields) =>
    match pyLookup "response" fields with
    | some (.obj efields) =>
      match pyLookup "error" efields with
      | some (.str s) => s = "Success"
      | _ => false
    | _ => false
  | _ => false

/-- A well-formed market-clock response with status "open". -/
def goodClock : Option Json :=
  some (.obj [("response", .obj [("status", .obj [("current", .str "open")])])])

/-- A well-formed balance response: cash 11000, no uncleared deposits. -/
def goodBalance : Option Json :=
  some (.obj [("response", .obj [("accountbalance", .obj [("money", .obj
    [("cash", .num 11000), ("uncleareddeposits", .num 0)])])])])

/-- A well-formed quote response with last price 100. -/
def goodQuote : Option Json :=
  some (.obj [("response", .obj [("quotes", .obj [("quote", .obj
    [("last", .num 100)])])])])

/-- An order response reporting failure. -/
def failOrder : Option Json :=
  some (.obj [("response", .obj [("error", .str "Failed")])])

/-- A deterministic gateway: markets open, balance 11000, every quote 100,
every order submission rejected. -/
def gwDemo : Gateway :=
  { acct := "12345678"
    clock := fun _ => goodClock
    balance := goodBalance
    quote := fun _ => goodQuote
    order := fun _ => failOrder }

/-! ## Helper lemmas -/

theorem gwDemo_clock (n : ℕ) : gwDemo.clock n = goodClock := rfl

theorem gwDemo_balance : gwDemo.balance = goodBalance := rfl

theorem gwDemo_quote (t : String) : gwDemo.quote t = goodQuote := rfl

theorem gwDemo_order (b : String) : gwDemo.order b = failOrder := rfl

theorem gwDemo_acct : gwDemo.acct = "12345678" := rfl

theorem roundHalfEven_nonneg {x : ℚ} (hx : 0 ≤ x) : 0 ≤ roundHalfEven x := by
  unfold roundHalfEven
  have hf : (0 : ℤ) ≤ ⌊x⌋ := Int.floor_nonneg.mpr hx
  split_ifs <;> omega

theorem round2_nonneg {x : ℚ} (hx : 0 ≤ x) : 0 ≤ round2 x := by
  unfold round2
  have h : (0 : ℤ) ≤ roundHalfEven (x * 100) :=
    roundHalfEven_nonneg (by positivity)
  positivity

/-- Evaluation rule for `roundHalfEven` when the fractional part is below
one half. -/
theorem roundHalfEven_eq_floor {x : ℚ} (h : x - ⌊x⌋ < 1 / 2) :
    roundHalfEven x = ⌊x⌋ := if_pos h

/-- Evaluation rule for `get_budget` with a positive strategy count, phrased
through the floor of the scaled share so that concrete instances follow by
`norm_num`. -/
theorem get_budget_eval {balance : ℚ} {n : ℤ} (hn : 0 < n) {f : ℤ}
    (hmax : 0 ≤ balance - CASH_HOLD)
    (hfl : ⌊(balance - CASH_HOLD) / (n : ℚ) * 100⌋ = f)
    (hlt : (balance - CASH_HOLD) / (n : ℚ) * 100 - (f : ℚ) < 1 / 2) :
    get_budget balance n = (f : ℚ) / 100 := by
  rw [get_budget, if_neg (by omega), max_eq_right hmax, round2,
    roundHalfEven_eq_floor (by rw [hfl]; exact hlt), hfl]

/-! ## Claim theorems -/

/-- C1: `get_strategy` decides by the first matching rule, each branch
terminal: blacklisted tickers give hold/"blacklist" regardless of sentiment
or market status; otherwise a status that is neither "open" nor "pre" gives
hold/"market closed" for any sentiment; otherwise zero sentiment gives
hold/"neutral sentiment", positive sentiment gives bull/"positive sentiment"
and negative sentiment gives bear/"negative sentiment".  The function is a
total Lean function, hence pure, deterministic and exception-free. -/
theorem claim_C1_get_strategy (c : Company) (ms : Option String) :
    (c.ticker ∈ TICKER_BLACKLIST →
      get_strategy c ms = ⟨c.ticker, "hold", "blacklist"⟩) ∧
    (c.ticker ∉ TICKER_BLACKLIST → ms ≠ some "open" → ms ≠ some "pre" →
      get_strategy c ms = ⟨c.ticker, "hold", "market closed"⟩) ∧
    (c.ticker ∉ TICKER_BLACKLIST → (ms = some "open" ∨ ms = some "pre") →
      c.sentiment = 0 →
      get_strategy c ms = ⟨c.ticker, "hold", "neutral sentiment"⟩) ∧
    (c.ticker ∉ TICKER_BLACKLIST → (ms = some "open" ∨ ms = some "pre") →
      0 < c.sentiment →
      get_strategy c ms = ⟨c.ticker, "bull", "positive sentiment"⟩) ∧
    (c.ticker ∉ TICKER_BLACKLIST → (ms = some "open" ∨ ms = some "pre") →
      c.sentiment < 0 →
      get_strategy c ms = ⟨c.ticker, "bear", "negative sentiment"⟩) := by
  refine ⟨fun h => ?_, fun h h1 h2 => ?_, fun h h1 h2 => ?_,
    fun h h1 h2 => ?_, fun h h1 h2 => ?_⟩
  · simp [get_strategy, h]
  · simp [get_strategy, h, h1, h2]
  · rcases h1 with h1 | h1 <;> subst h1 <;> simp [get_strategy, h, h2]
  · rcases h1 with h1 | h1 <;> subst h1 <;>
      simp [get_strategy, h, h2, h2.ne', not_lt_of_gt h2]
  · rcases h1 with h1 | h1 <;> subst h1 <;>
      simp [get_strategy, h, h2, h2.ne, not_lt_of_gt h2]

/-- Witness for C1 at a concrete input: Ford with positive sentiment in an
open market is a bull strategy. -/
theorem claim_C1_get_strategy_witness :
    get_strategy ⟨"F", 1⟩ (some "open") = ⟨"F", "bull", "positive sentiment"⟩ :=
  (claim_C1_get_strategy ⟨"F", 1⟩ (some "open")).2.2.2.1 (by decide)
    (Or.inl rfl) (by norm_num)

/-- C3: `get_budget` returns 0 for a non-positive strategy count, and
otherwise divides the balance minus the cash hold (floored at 0) by the
strategy count, rounded to two decimal places; the documented examples hold
and the result is never negative. -/
theorem claim_C3_get_budget (balance : ℚ) (n : ℤ) :
    (n ≤ 0 → get_budget balance n = 0) ∧
    (0 < n →
      get_budget balance n = round2 (max 0 (balance - CASH_HOLD) / (n : ℚ))) ∧
    get_budget 11000 1 = 10000 ∧
    get_budget 11000 2 = 5000 ∧
    get_budget 11000 3 = 3333.33 ∧
    get_budget 11000 0 = 0 ∧
    0 ≤ get_budget balance n := by
  refine ⟨fun h => by simp [get_budget, h], fun h => ?_, ?_, ?_, ?_,
    by simp [get_budget], ?_⟩
  · rw [get_budget, if_neg (by omega)]
  · have h := @get_budget_eval 11000 1 (by norm_num) 1000000
      (by norm_num [CASH_HOLD])
      (by rw [Int.floor_eq_iff]; norm_num [CASH_HOLD])
      (by norm_num [CASH_HOLD])
    rw [h]; norm_num
  · have h := @get_budget_eval 11000 2 (by norm_num) 500000
      (by norm_num [CASH_HOLD])
      (by rw [Int.floor_eq_iff]; norm_num [CASH_HOLD])
      (by norm_num [CASH_HOLD])
    rw [h]; norm_num
  · have h := @get_budget_eval 11000 3 (by norm_num) 333333
      (by norm_num [CASH_HOLD])
      (by rw [Int.floor_eq_iff]; norm_num [CASH_HOLD])
      (by norm_num [CASH_HOLD])
    rw [h]; norm_num
  · rw [get_budget]
    split_ifs with h
    · exact le_refl 0
    · refine round2_nonneg (div_nonneg (le_max_left 0 _) ?_)
      exact_mod_cast (by omega : (0 : ℤ) ≤ n)

/-- Witness for C3 at concrete inputs: a negative strategy count yields a
zero budget, a positive one the rounded equal share. -/
theorem claim_C3_get_budget_witness :
    get_budget 11000 (-2) = 0 ∧
    get_budget 11000 3 = round2 (max 0 ((11000 : ℚ) - CASH_HOLD) / (3 : ℚ)) :=
  ⟨(claim_C3_get_budget 11000 (-2)).1 (by decide),
   (claim_C3_get_budget 11000 3).2.1 (by decide)⟩

set_option maxRecDepth 8000 in
/-- C4: for ticker "GM" and quantity 23 each of the four order builders
produces the exact serialized FIXML documented in the tests — day order for
the two opening legs, market-on-close for the two closing legs, Side 1/2/5
per intent, AcctTyp 5 only on the cover leg, attributes in insertion order,
with the Instrmt and OrdQty children — and building the same intent twice
yields identical bytes. -/
theorem claim_C4_fixml_serialization (acct : String) :
    fixml_buy_now acct "GM" 23 =
      "<FIXML xmlns=\"http://www.fixprotocol.org/FIXML-5-0-SP2\"><Order TmInForce=\"0\" Typ=\"1\" Side=\"1\" Acct=\"" ++
        acct ++ "\"><Instrmt SecTyp=\"CS\" Sym=\"GM\"/><OrdQty Qty=\"23\"/></Order></FIXML>" ∧
    fixml_sell_eod acct "GM" 23 =
      "<FIXML xmlns=\"http://www.fixprotocol.org/FIXML-5-0-SP2\"><Order TmInForce=\"7\" Typ=\"1\" Side=\"2\" Acct=\"" ++
        acct ++ "\"><Instrmt SecTyp=\"CS\" Sym=\"GM\"/><OrdQty Qty=\"23\"/></Order></FIXML>" ∧
    fixml_short_now acct "GM" 23 =
      "<FIXML xmlns=\"http://www.fixprotocol.org/FIXML-5-0-SP2\"><Order TmInForce=\"0\" Typ=\"1\" Side=\"5\" Acct=\"" ++
        acct ++ "\"><Instrmt SecTyp=\"CS\" Sym=\"GM\"/><OrdQty Qty=\"23\"/></Order></FIXML>" ∧
    fixml_cover_eod acct "GM" 23 =
      "<FIXML xmlns=\"http://www.fixprotocol.org/FIXML-5-0-SP2\"><Order TmInForce=\"7\" Typ=\"1\" Side=\"1\" AcctTyp=\"5\" Acct=\"" ++
        acct ++ "\"><Instrmt SecTyp=\"CS\" Sym=\"GM\"/><OrdQty Qty=\"23\"/></Order></FIXML>" ∧
    (fixml_buy_now acct "GM" 23 = fixml_buy_now acct "GM" 23 ∧
     fixml_sell_eod acct "GM" 23 = fixml_sell_eod acct "GM" 23 ∧
     fixml_short_now acct "GM" 23 = fixml_short_now acct "GM" 23 ∧
     fixml_cover_eod acct "GM" 23 = fixml_cover_eod acct "GM" 23) := by
  refine ⟨?_, ?_, ?_, ?_, rfl, rfl, rfl, rfl⟩ <;>
    · apply String.ext
      simp [fixml_buy_now, fixml_sell_eod, fixml_short_now, fixml_cover_eod,
        tostring, tostringList, attrString, FIXML_NAMESPACE, String.join]
      decide

/-! ## Evaluation lemmas for the concrete gateway -/

theorem gms_good : get_market_status goodClock = .ok (some "open") := by
  simp [get_market_status, goodClock, truthy, pyMem, pyGet, pyLookup,
    Bind.bind, Except.bind, Pure.pure, Except.pure]

theorem gb_good : get_balance goodBalance = .ok 11000 := by
  simp [get_balance, goodBalance, truthy, pyMem, pyGet, pyLookup, pyFloat,
    Bind.bind, Except.bind, Pure.pure, Except.pure]

theorem glp_good : get_last_price goodQuote = .ok (some 100) := by
  simp [get_last_price, goodQuote, truthy, pyMem, pyGet, pyLookup, pyFloat,
    malformedQuotes, Bind.bind, Except.bind, Pure.pure, Except.pure]

theorem gq_good : get_quantity goodQuote 5000 = .ok (some 50) := by
  simp [get_quantity, glp_good, Bind.bind, Except.bind, Pure.pure,
    Except.pure, show (5000 : ℚ) / 100 = (50 : ℚ) from by norm_num]

theorem mor_fail : make_order_request failOrder = .ok false := by
  simp [make_order_request, failOrder, truthy, pyMem, pyGet, pyLookup,
    jsonEqStr, Bind.bind, Except.bind, Pure.pure, Except.pure]

theorem budget_11000_2 : get_budget 11000 2 = 5000 := by
  have h := @get_budget_eval 11000 2 (by norm_num) 500000
    (by norm_num [CASH_HOLD])
    (by rw [Int.floor_eq_iff]; norm_num [CASH_HOLD])
    (by norm_num [CASH_HOLD])
  rw [h]; norm_num

theorem bull_AAA_demo : bull gwDemo "AAA" 5000 =
    (.ok false, [.quote "AAA",
      .order ("<FIXML xmlns=\"http://www.fixprotocol.org/FIXML-5-0-SP2\"><Order TmInForce=\"0\" Typ=\"1\" Side=\"1\" Acct=\"12345678\"><Instrmt SecTyp=\"CS\" Sym=\"AAA\"/><OrdQty Qty=\"50\"/></Order></FIXML>")]) := by
  have hfix : fixml_buy_now "12345678" "AAA" 50 =
    "<FIXML xmlns=\"http://www.fixprotocol.org/FIXML-5-0-SP2\"><Order TmInForce=\"0\" Typ=\"1\" Side=\"1\" Acct=\"12345678\"><Instrmt SecTyp=\"CS\" Sym=\"AAA\"/><OrdQty Qty=\"50\"/></Order></FIXML>" := rfl
  simp [bull, gwDemo_quote, gwDemo_order, gwDemo_acct, gq_good, mor_fail, hfix]

/-- Strategy selection for "BA" with zero sentiment is "hold" under every
market status. -/
theorem BA_neutral_hold (ms : Option String) :
    get_strategy ⟨"BA", 0⟩ ms = ⟨"BA", "hold",
      if ms ≠ some "open" ∧ ms ≠ some "pre" then "market closed"
      else "neutral sentiment"⟩ := by
  by_cases h : ms ≠ some "open" ∧ ms ≠ some "pre" <;>
    simp [get_strategy, TICKER_BLACKLIST, h]

/-- The run of `make_trades` on the demo gateway with the single neutral
Boeing signal: two clock requests, then failure with nothing else issued. -/
theorem mt_BA_demo :
    make_trades gwDemo [⟨"BA", 0⟩] = (.ok false, [.clock, .clock]) := by
  simp [make_trades, gwDemo_clock, gms_good, BA_neutral_hold]

/-! ## Claim C2 -/

/-- Counterexample to C2: on a gateway whose order submissions fail, a run
with two actionable bull strategies "AAA" and "BBB" stops executing after
the first strategy fails — the trace contains no quote request and no order
leg for "BBB", although "BBB" is actionable — and returns `ok false`. -/
theorem claim_C2_counterexample :
    make_trades gwDemo [⟨"AAA", 1⟩, ⟨"BBB", 1⟩] =
      (.ok false,
       [.clock, .clock, .balance, .quote "AAA",
        .order ("<FIXML xmlns=\"http://www.fixprotocol.org/FIXML-5-0-SP2\"><Order TmInForce=\"0\" Typ=\"1\" Side=\"1\" Acct=\"12345678\"><Instrmt SecTyp=\"CS\" Sym=\"AAA\"/><OrdQty Qty=\"50\"/></Order></FIXML>")]) ∧
    Req.quote "BBB" ∉
      (make_trades gwDemo [⟨"AAA", 1⟩, ⟨"BBB", 1⟩]).2 := by
  have h : make_trades gwDemo [⟨"AAA", 1⟩, ⟨"BBB", 1⟩] =
      (.ok false,
       [.clock, .clock, .balance, .quote "AAA",
        .order ("<FIXML xmlns=\"http://www.fixprotocol.org/FIXML-5-0-SP2\"><Order TmInForce=\"0\" Typ=\"1\" Side=\"1\" Acct=\"12345678\"><Instrmt SecTyp=\"CS\" Sym=\"AAA\"/><OrdQty Qty=\"50\"/></Order></FIXML>")]) := by
    simp [make_trades, gwDemo_clock, gwDemo_balance, gms_good, gb_good,
      budget_11000_2, get_strategy, TICKER_BLACKLIST, run_strategies,
      bull_AAA_demo]
  exact ⟨h, by rw [h]; simp⟩

/-- C2 amended: once a strategy has failed (the success accumulator is
false), the short-circuit conjunction skips every later strategy — the rest
of the loop issues no gateway request, computes no quantity, submits no leg,
and the loop returns false. -/
theorem claim_C2_short_circuit_after_failure (gw : Gateway) (budget : ℚ)
    (strategies : List Strategy) :
    run_strategies gw budget false strategies = (.ok false, []) := by
  induction strategies with
  | nil => rfl
  | cons s rest ih => rw [run_strategies]; split_ifs <;> simp_all

/-! ## Claim C5 -/

/-- Counterexample to C5: a present response that is a bare JSON number is
"another response" in the claim's sense (it has no nested result object),
yet `make_order_request` does not return false — the containment test
`"response" not in response` raises `TypeError` on a number. -/
theorem claim_C5_counterexample :
    make_order_request (some (.num 5)) = .error .typeError ∧
    make_order_request (some (.num 5)) ≠ .ok false := by
  have h : make_order_request (some (.num 5)) = .error .typeError := by
    norm_num [make_order_request, truthy, pyMem, Bind.bind, Except.bind]
  exact ⟨h, by rw [h]; simp⟩

/-- C5 amended: whenever `make_order_request` returns a boolean (rather
than raising `TypeError` on a malformed container shape), that boolean is
true if and only if the response is present, contains a nested result
object, and that object's error field literally equals "Success"; every
other returning case yields false. -/
theorem claim_C5_order_result (r : Option Json) (b : Bool)
    (h : make_order_request r = .ok b) : b = spec_order_success r := by
  cases r with
  | none => simp_all [make_order_request, spec_order_success]
  | some j =>
    cases j with
    | null => simp_all [make_order_request, spec_order_success, truthy]
    | bool bb =>
      cases bb <;>
        simp_all [make_order_request, spec_order_success, truthy, pyMem,
          Bind.bind, Except.bind]
    | num q =>
      by_cases hq : q = 0 <;>
        simp_all [make_order_request, spec_order_success, truthy, pyMem,
          Bind.bind, Except.bind]
    | str s =>
      by_cases hs : s = "" <;>
        by_cases hc : strContains s "response" = true <;>
        simp_all [make_order_request, spec_order_success, truthy, pyMem,
          pyGet, Bind.bind, Except.bind, Pure.pure, Except.pure]
    | arr elems =>
      by_cases he : elems.isEmpty <;>
        by_cases hm : (elems.any fun e =>
            match e with | .str s => s = "response" | _ => false) = true <;>
        simp_all [make_order_request, spec_order_success, truthy, pyMem,
          pyGet, Bind.bind, Except.bind, Pure.pure, Except.pure]
    | obj fields =>
      by_cases hf : fields.isEmpty
      · simp_all [make_order_request, spec_order_success, truthy,
          List.isEmpty_iff, pyLookup]
      · cases hl : pyLookup "response" fields with
        | none =>
          simp_all [make_order_request, spec_order_success, truthy, pyMem,
            Bind.bind, Except.bind, Pure.pure, Except.pure]
        | some v =>
          cases v with
          | null =>
            simp_all [make_order_request, spec_order_success, truthy, pyMem,
              pyGet, Bind.bind, Except.bind, Pure.pure, Except.pure]
          | bool bb =>
            cases bb <;>
              simp_all [make_order_request, spec_order_success, truthy, pyMem,
                pyGet, Bind.bind, Except.bind, Pure.pure, Except.pure]
          | num q =>
            by_cases hq : q = 0 <;>
              simp_all [make_order_request, spec_order_success, truthy, pyMem,
                pyGet, Bind.bind, Except.bind, Pure.pure, Except.pure]
          | str s =>
            by_cases hs : s = "" <;>
              by_cases hc : strContains s "error" = true <;>
              simp_all [make_order_request, spec_order_success, truthy, pyMem,
                pyGet, Bind.bind, Except.bind, Pure.pure, Except.pure]
          | arr es =>
            by_cases he : es.isEmpty <;>
              by_cases hm : (es.any fun e =>
                  match e with | .str s => s = "error" | _ => false) = true <;>
              simp_all [make_order_request, spec_order_success, truthy, pyMem,
                pyGet, Bind.bind, Except.bind, Pure.pure, Except.pure]
          | obj efs =>
            by_cases he : efs.isEmpty
            · simp_all [make_order_request, spec_order_success, truthy, pyMem,
                pyGet, Bind.bind, Except.bind, Pure.pure, Except.pure,
                List.isEmpty_iff, pyLookup]
            · cases hel : pyLookup "error" efs with
              | none =>
                simp_all [make_order_request, spec_order_success, truthy,
                  pyMem, pyGet, Bind.bind, Except.bind, Pure.pure, Except.pure]
              | some ev =>
                cases ev <;>
                  simp_all [make_order_request, spec_order_success, truthy,
                    pyMem, pyGet, jsonEqStr, Bind.bind, Except.bind,
                    Pure.pure, Except.pure]

/-- Witness for C5 at a concrete input: a successful order response returns
true, matching the spec condition. -/
theorem claim_C5_order_result_witness :
    make_order_request
      (some (.obj [("response", .obj [("error", .str "Success")])])) =
      .ok true ∧
    true = spec_order_success
      (some (.obj [("response", .obj [("error", .str "Success")])])) := by
  have heval : make_order_request
      (some (.obj [("response", .obj [("error", .str "Success")])])) =
      .ok true := by
    simp [make_order_request, truthy, pyMem, pyGet, pyLookup, jsonEqStr,
      Bind.bind, Except.bind, Pure.pure, Except.pure]
  exact ⟨heval, claim_C5_order_result _ true heval⟩

/-! ## Claim C6 -/

/-- Peeling one `Except` bind that produced a success. -/
theorem exceptBind_ok {α β : Type} {x : Except PyErr α}
    {f : α → Except PyErr β} {b : β} (h : x >>= f = .ok b) :
    ∃ a, x = .ok a ∧ f a = .ok b := by
  cases x with
  | error e => simp [Bind.bind, Except.bind] at h
  | ok a => exact ⟨a, rfl, by simpa [Bind.bind, Except.bind] using h⟩

/-- Any price that `get_last_price` returns is strictly positive: the only
successful return is guarded by `last > 0`. -/
theorem get_last_price_pos {resp : Option Json} {p : ℚ}
    (h : get_last_price resp = .ok (some p)) : 0 < p := by
  cases resp with
  | none => simp [get_last_price] at h
  | some j =>
    rw [get_last_price] at h
    split at h
    · simp at h
    · obtain ⟨hasResp, h1, h⟩ := exceptBind_ok h
      split at h
      · simp at h
      · obtain ⟨quotes, h2, h⟩ := exceptBind_ok h
        obtain ⟨bad, h3, h⟩ := exceptBind_ok h
        split at h
        · simp at h
        · obtain ⟨qs, h4, h⟩ := exceptBind_ok h
          obtain ⟨quote, h5, h⟩ := exceptBind_ok h
          obtain ⟨hasLast, h6, h⟩ := exceptBind_ok h
          split at h
          · simp at h
          · obtain ⟨lastJ, h7, h⟩ := exceptBind_ok h
            split at h
            · simp at h
            · simp at h
            · rename_i last hfl
              split at h
              · rename_i hpos
                simp at h
                subst h
                exact hpos
              · simp at h

/-- C6: `get_quantity` returns none when the price lookup returns none
(price unavailable or not positive), otherwise the floor of budget/price,
except that a non-positive floor becomes none; every returned quantity is
strictly positive. -/
theorem claim_C6_get_quantity (resp : Option Json) (budget : ℚ) :
    (get_last_price resp = .ok none → get_quantity resp budget = .ok none) ∧
    (∀ p, get_last_price resp = .ok (some p) →
      get_quantity resp budget =
        .ok (if ⌊budget / p⌋ ≤ 0 then none else some ⌊budget / p⌋)) ∧
    (∀ q, get_quantity resp budget = .ok (some q) → 0 < q) := by
  refine ⟨fun h => ?_, fun p h => ?_, fun q h => ?_⟩
  · simp [get_quantity, h, Bind.bind, Except.bind]
  · have hp := get_last_price_pos h
    simp [get_quantity, h, Bind.bind, Except.bind, hp.ne', apply_ite]
  · rw [get_quantity] at h
    obtain ⟨price, h1, h⟩ := exceptBind_ok h
    split at h
    · simp at h
    · split at h
      · simp at h
      · split at h
        · simp at h
        · rename_i hle
          injection h with h
          injection h with h
          omega

/-- Witness for C6 at a concrete input: price 100, budget 5000 gives
quantity 50. -/
theorem claim_C6_get_quantity_witness :
    get_quantity goodQuote 5000 = .ok (some 50) := by
  have h := (claim_C6_get_quantity goodQuote 5000).2.1 100 glp_good
  rw [h]
  norm_num [show (5000 : ℚ) / 100 = (50 : ℚ) from by norm_num]

/-! ## Claim C7 -/

/-- C7 failing input: a present response whose nested quotes wrapper is
missing (an empty result object) makes `get_last_price` raise `NameError` —
the malformed-quotes log line references the undefined name
`quotes_response` — instead of returning the sentinel none. -/
theorem claim_C7_lastprice_raises :
    get_last_price (some (.obj [("response", .obj [])])) =
      .error .nameError ∧
    get_last_price (some (.obj [("response", .obj [])])) ≠ .ok none := by
  have h : get_last_price (some (.obj [("response", .obj [])])) =
      .error .nameError := by
    simp [get_last_price, truthy, pyMem, pyGet, pyLookup, malformedQuotes,
      Bind.bind, Except.bind]
  exact ⟨h, by rw [h]; simp⟩

/-! ## Claim C8 -/

/-- Counterexample to C8: a strategy list containing only a strategy with
the unknown action "straddle" leaves the success accumulator untouched, so
the loop returns true — the unknown action does not contribute failure. -/
theorem claim_C8_counterexample :
    run_strategies gwDemo 100 true [⟨"X", "straddle", "irrelevant"⟩] =
      (.ok true, []) := by
  simp [run_strategies]

/-- C8 amended: a strategy whose action is neither "bull" nor "bear" is
logged and skipped without raising — it leaves the loop's state (and hence
the overall result) exactly as if the strategy were absent. -/
theorem claim_C8_unknown_action_skipped (gw : Gateway) (budget : ℚ)
    (success : Bool) (s : Strategy) (rest : List Strategy)
    (h1 : s.action ≠ "bull") (h2 : s.action ≠ "bear") :
    run_strategies gw budget success (s :: rest) =
      run_strategies gw budget success rest := by
  rw [run_strategies]
  simp [h1, h2]

/-- Witness for C8 at a concrete input. -/
theorem claim_C8_unknown_action_skipped_witness :
    run_strategies gwDemo 100 true [⟨"X", "straddle", "irrelevant"⟩] =
      run_strategies gwDemo 100 true [] :=
  claim_C8_unknown_action_skipped gwDemo 100 true
    ⟨"X", "straddle", "irrelevant"⟩ [] (by decide) (by decide)

/-! ## Claim C9 -/

theorem bull_no_clock (gw : Gateway) (t : String) (budget : ℚ) :
    Req.clock ∉ (bull gw t budget).2 := by
  rw [bull]
  split
  · simp
  · simp
  · split
    · simp
    · simp
    · split <;> simp

theorem bear_no_clock (gw : Gateway) (t : String) (budget : ℚ) :
    Req.clock ∉ (bear gw t budget).2 := by
  rw [bear]
  split
  · simp
  · simp
  · split
    · simp
    · simp
    · split <;> simp

/-- The per-strategy loop never issues a market-clock request. -/
theorem run_strategies_no_clock (gw : Gateway) (budget : ℚ) (success : Bool)
    (l : List Strategy) :
    Req.clock ∉ (run_strategies gw budget success l).2 := by
  induction l generalizing success with
  | nil => simp [run_strategies]
  | cons s rest ih =>
    rw [run_strategies]
    split_ifs with h1 h2 h3 h4
    · have hb := bull_no_clock gw s.ticker budget
      rcases hbe : bull gw s.ticker budget with ⟨res, tr⟩
      rw [hbe] at hb
      cases res with
      | error e => simpa [hbe] using hb
      | ok b =>
        have hr := ih b
        rcases hre : run_strategies gw budget b rest with ⟨res2, tr2⟩
        rw [hre] at hr
        simp_all [List.mem_append]
    · exact ih false
    · have hb := bear_no_clock gw s.ticker budget
      rcases hbe : bear gw s.ticker budget with ⟨res, tr⟩
      rw [hbe] at hb
      cases res with
      | error e => simpa [hbe] using hb
      | ok b =>
        have hr := ih b
        rcases hre : run_strategies gw budget b rest with ⟨res2, tr2⟩
        rw [hre] at hr
        simp_all [List.mem_append]
    · exact ih false
    · exact ih success

/-- Counterexample to C9: on a well-behaved gateway, the run for the single
neutral Boeing signal issues the market-clock request twice — a second
clock request follows the initial abort check. -/
theorem claim_C9_counterexample :
    (make_trades gwDemo [⟨"BA", 0⟩]).2 = [Req.clock, Req.clock] ∧
    (make_trades gwDemo [⟨"BA", 0⟩]).2.count Req.clock = 2 := by
  rw [mt_BA_demo]
  exact ⟨rfl, rfl⟩

/-- C9 amended: a run of make_trades issues the market-clock request twice
whenever the first clock fetch succeeds — once for the abort check and once
more before strategies are computed — and exactly once when the first fetch
fails; no further clock request is issued elsewhere in the run. -/
theorem claim_C9_clock_twice (gw : Gateway) (companies : List Company) :
    (make_trades gw companies).2.count Req.clock =
      match get_market_status (gw.clock 0) with
      | .ok (some _) => 2
      | _ => 1 := by
  rw [make_trades]
  cases h0 : get_market_status (gw.clock 0) with
  | error e => simp [List.count_cons, List.count_nil]
  | ok o =>
    cases o with
    | none => simp [List.count_cons, List.count_nil]
    | some s =>
      dsimp only
      cases h1 : get_market_status (gw.clock 1) with
      | error e => simp [List.count_cons, List.count_nil]
      | ok ms =>
        dsimp only
        split_ifs with he
        · simp [List.count_cons, List.count_nil]
        · cases hb : get_balance gw.balance with
          | error e => simp [List.count_cons, List.count_nil]
          | ok balance =>
            dsimp only
            split_ifs with hz
            · simp [List.count_cons, List.count_nil]
            · have hnc := run_strategies_no_clock gw
                (get_budget balance (((companies.map fun c =>
                  get_strategy c ms).filter fun s => s.action != "hold").length : ℤ))
                true ((companies.map fun c =>
                  get_strategy c ms).filter fun s => s.action != "hold")
              rcases hre : run_strategies gw _ true _ with ⟨res2, tr2⟩
              rw [hre] at hnc
              simp [hre, List.count_append, List.count_cons, List.count_nil,
                List.count_eq_zero.mpr hnc]

/-! ## Claim C10 -/

/-- C10: for the single company {ticker "BA", sentiment 0}, any run of
make_trades that returns (rather than raising on a malformed gateway
response) returns false, and every request it issued was a market-clock
request — no balance fetch, no quantity lookup, and no order submission. -/
theorem claim_C10_neutral_single (gw : Gateway) (b : Bool) (tr : List Req)
    (h : make_trades gw [⟨"BA", 0⟩] = (.ok b, tr)) :
    b = false ∧ tr.all (fun r => r == Req.clock) = true := by
  rw [make_trades] at h
  cases h0 : get_market_status (gw.clock 0) with
  | error e => rw [h0] at h; simp at h
  | ok o =>
    rw [h0] at h
    cases o with
    | none =>
      simp at h
      obtain ⟨hb, htr⟩ := h
      subst hb
      subst htr
      simp
    | some s =>
      cases h1 : get_market_status (gw.clock 1) with
      | error e => rw [h1] at h; simp at h
      | ok ms =>
        rw [h1] at h
        have hhold : (get_strategy ⟨"BA", 0⟩ ms).action = "hold" := by
          rw [BA_neutral_hold]
        simp [hhold] at h
        obtain ⟨hb, htr⟩ := h
        subst hb
        subst htr
        simp

/-- Witness for C10 on the concrete demo gateway. -/
theorem claim_C10_neutral_single_witness :
    false = false ∧
    ([Req.clock, Req.clock].all fun r => r == Req.clock) = true :=
  claim_C10_neutral_single gwDemo false [Req.clock, Req.clock] mt_BA_demo

end Trading
